import Mathlib

/-!
Verification development for the keateka backend core: shallow embedding of
the job lifecycle service (`app/api/jobs/service.py`), the availability check
(`app/features/jobs/permissions.py`), the matching engine
(`app/services/matching.py`), the payment reconciliation routes
(`app/api/payments/routes.py`, `app/api/payments/service.py`,
`app/api/v1/endpoints/payments.py`) and the time-tracking business-hours gate
(`app/shared/utils/time.py`, `app/features/jobs/time_tracking.py`).

Conventions: datetimes are integer minutes (an abstract linear clock);
monetary amounts and Python floats are rationals; fallible endpoints return
`Except` carrying the HTTP status code and detail string that the Python code
raises via `HTTPException`; database writes are explicit state passing.
-/

namespace Keateka

namespace Jobs

/-- `JobStatus` from `app/api/jobs/models.py`. -/
inductive JobStatus where
  | pending
  | scheduled
  | inProgress
  | completed
  | paid
  | canceled
deriving DecidableEq, Repr

/-- Lower-case value of the status enum, used in interpolated error details. -/
def JobStatus.text : JobStatus → String
  | .pending => "pending"
  | .scheduled => "scheduled"
  | .inProgress => "in_progress"
  | .completed => "completed"
  | .paid => "paid"
  | .canceled => "canceled"

/-- `ScheduleSlot` from `app/api/jobs/models.py`; `isAccepted` is the tri-state
acceptance flag (`none` = pending, `some true` = accepted, `some false` =
rejected). -/
structure ScheduleSlot where
  id : Nat
  startTime : Int
  endTime : Int
  isProposedByCleaner : Bool
  isAccepted : Option Bool
deriving DecidableEq, Repr

/-- `Job` from `app/api/jobs/models.py` (the fields the service reads or
writes). -/
structure Job where
  clientId : Nat
  cleanerId : Option Nat
  status : JobStatus
  estimatedDurationMinutes : Int
  actualDurationMinutes : Option Int
  baseCost : ℚ
  finalCost : Option ℚ
  scheduledFor : Option Int
  startedAt : Option Int
  completedAt : Option Int
  scheduleSlots : List ScheduleSlot
deriving DecidableEq, Repr

/-- An `HTTPException` as raised by the service: status code and detail. -/
structure SvcError where
  code : Nat
  detail : String
deriving DecidableEq, Repr

/-- `JobService.base_rate_per_minute` (`app/api/jobs/service.py`, 4.50 KES). -/
def baseRatePerMinute : ℚ := 4.5

/-- `JobService._calculate_base_cost`. -/
def calculateBaseCost (durationMinutes : Int) : ℚ :=
  durationMinutes * baseRatePerMinute

/-- `JobService._calculate_final_cost` (argument order as in the source:
base cost, actual minutes, estimated minutes). -/
def calculateFinalCost (baseCost : ℚ) (actualMinutes estimatedMinutes : Int) : ℚ :=
  if actualMinutes ≤ estimatedMinutes then baseCost
  else
    baseCost + (actualMinutes - estimatedMinutes : Int) * baseRatePerMinute * 1.2

/-- First slot in the list with the given id (the `for s in job.schedule_slots`
lookup loop in `accept_schedule_slot`). -/
def findSlot (slots : List ScheduleSlot) (slotId : Nat) : Option ScheduleSlot :=
  slots.find? (fun s => s.id == slotId)

/-- In-place update `slot.is_accepted = True` on the first slot with the given
id, mirroring the mutation of the found slot object. -/
def acceptSlotInList : List ScheduleSlot → Nat → List ScheduleSlot
  | [], _ => []
  | s :: rest, slotId =>
    if s.id == slotId then { s with isAccepted := some true } :: rest
    else s :: acceptSlotInList rest slotId

/-- `JobService.accept_schedule_slot` (`app/api/jobs/service.py` lines 99-128):
client ownership check, slot lookup, tri-state guard on the targeted slot, then
accept the slot and assign the cleaner.  The source has no job-status guard, no
check that the job has no cleaner yet, and no availability/conflict check. -/
def acceptScheduleSlot (job : Job) (slotId clientId cleanerId : Nat) :
    Except SvcError Job :=
  if job.clientId ≠ clientId then
    .error ⟨403, "Not authorized to modify this job"⟩
  else
    match findSlot job.scheduleSlots slotId with
    | none => .error ⟨404, "Schedule slot not found"⟩
    | some slot =>
      if slot.isAccepted ≠ none then
        .error ⟨400, "This slot has already been processed"⟩
      else
        .ok { job with
              scheduleSlots := acceptSlotInList job.scheduleSlots slotId
              cleanerId := some cleanerId
              status := .scheduled
              scheduledFor := some slot.startTime }

/-- `JobService.propose_schedule_slot`: status guard, past-start guard, order
guard, ±15 minute duration guard; on success returns the created pending slot
(the job row itself is not written). -/
def proposeScheduleSlot (job : Job) (startTime endTime : Int) (now : Int)
    (proposedByCleaner : Bool) (newId : Nat) : Except SvcError ScheduleSlot :=
  if job.status ≠ .pending ∧ job.status ≠ .scheduled then
    .error ⟨400, "Cannot propose schedule for job with status " ++ job.status.text⟩
  else if startTime < now then
    .error ⟨400, "Cannot propose a time slot in the past"⟩
  else if endTime ≤ startTime then
    .error ⟨400, "End time must be after start time"⟩
  else if 15 < |(endTime - startTime) - job.estimatedDurationMinutes| then
    .error ⟨400, "Proposed slot duration does not match job estimate"⟩
  else
    .ok ⟨newId, startTime, endTime, proposedByCleaner, none⟩

/-- `JobService.start_job`: assigned-cleaner check, SCHEDULED guard, then move
to IN_PROGRESS stamping `started_at = now`. -/
def startJob (job : Job) (cleanerId : Nat) (now : Int) : Except SvcError Job :=
  if job.cleanerId ≠ some cleanerId then
    .error ⟨403, "Not authorized to start this job"⟩
  else if job.status ≠ .scheduled then
    .error ⟨400, "Cannot start a job with status " ++ job.status.text⟩
  else
    .ok { job with status := .inProgress, startedAt := some now }

/-- `JobService.complete_job`: assigned-cleaner check, IN_PROGRESS guard,
`started_at` presence check; the duration-discrepancy branch of the source
only `pass`es, so it is not modelled as an effect.  Computes the final cost
and moves to COMPLETED. -/
def completeJob (job : Job) (cleanerId : Nat) (actualDurationMinutes : Int)
    (now : Int) : Except SvcError Job :=
  if job.cleanerId ≠ some cleanerId then
    .error ⟨403, "Not authorized to complete this job"⟩
  else if job.status ≠ .inProgress then
    .error ⟨400, "Cannot complete a job with status " ++ job.status.text⟩
  else if job.startedAt = none then
    .error ⟨500, "Job started_at timestamp missing"⟩
  else
    .ok { job with
          status := .completed
          completedAt := some now
          actualDurationMinutes := some actualDurationMinutes
          finalCost := some (calculateFinalCost job.baseCost actualDurationMinutes
            job.estimatedDurationMinutes) }

/-- `JobService.mark_job_paid` (`app/api/jobs/service.py` lines 202-215):
raises 400 unless the job is COMPLETED; otherwise sets status PAID. -/
def markJobPaid (job : Job) : Except SvcError Job :=
  if job.status ≠ .completed then
    .error ⟨400, "Cannot mark as paid a job with status " ++ job.status.text⟩
  else
    .ok { job with status := .paid }

/-- `JobService.cancel_job` (`app/api/jobs/service.py` lines 217-236):
actor authorization, then refuse only COMPLETED and PAID, else set CANCELED. -/
def cancelJob (job : Job) (userId : Nat) (isClient : Bool) :
    Except SvcError Job :=
  if isClient ∧ job.clientId ≠ userId then
    .error ⟨403, "Not authorized to cancel this job"⟩
  else if ¬isClient ∧ job.cleanerId ≠ some userId then
    .error ⟨403, "Not authorized to cancel this job"⟩
  else if job.status = .completed ∨ job.status = .paid then
    .error ⟨400, "Cannot cancel a job with status " ++ job.status.text⟩
  else
    .ok { job with status := .canceled }

/-- The §4.1 lifecycle graph of the spec: PENDING → SCHEDULED → IN_PROGRESS →
COMPLETED → PAID, plus PENDING/SCHEDULED/IN_PROGRESS → CANCELED. -/
def specEdge : JobStatus → JobStatus → Bool
  | .pending, .scheduled => true
  | .scheduled, .inProgress => true
  | .inProgress, .completed => true
  | .completed, .paid => true
  | .pending, .canceled => true
  | .scheduled, .canceled => true
  | .inProgress, .canceled => true
  | _, _ => false

/-- Number of accepted slots attached to a job. -/
def acceptedCount (job : Job) : Nat :=
  (job.scheduleSlots.filter (fun s => s.isAccepted == some true)).length

end Jobs

namespace Permissions

/-- `JobStatus` from `app/features/jobs/models.py` (the enum used by
`validate_cleaner_availability`). -/
inductive FJobStatus where
  | pending
  | accepted
  | inProgress
  | completed
  | cancelled
deriving DecidableEq, Repr

/-- The fields of `app/features/jobs/models.py` `Job` that
`validate_cleaner_availability` reads; `scheduledTime` is in minutes. -/
structure FJob where
  cleanerId : Option Nat
  scheduledTime : Int
  estimatedDuration : Int
  status : FJobStatus
deriving DecidableEq, Repr

/-- Midnight of the calendar day containing `t` under the minutes clock
(`scheduled_time.replace(hour=0, minute=0, second=0, microsecond=0)`). -/
def dayStart (t : Int) : Int := (t.fdiv 1440) * 1440

/-- `validate_cleaner_availability` from `app/features/jobs/permissions.py`
lines 58-92: restrict to the cleaner's ACCEPTED/IN_PROGRESS jobs on the same
day, then report unavailability when the three-disjunct endpoint test hits. -/
def validateCleanerAvailability (db : List FJob) (cleanerId : Nat)
    (scheduledTime : Int) (estimatedDuration : Int) : Bool :=
  let ds := dayStart scheduledTime
  let de := ds + 1440
  let jobs := db.filter (fun j =>
    j.cleanerId == some cleanerId &&
    decide (ds ≤ j.scheduledTime) && decide (j.scheduledTime < de) &&
    (j.status == .accepted || j.status == .inProgress))
  let jobEndTime := scheduledTime + estimatedDuration
  !(jobs.any (fun existing =>
    let existingEndTime := existing.scheduledTime + existing.estimatedDuration
    (decide (scheduledTime ≤ existing.scheduledTime) &&
      decide (existing.scheduledTime < jobEndTime)) ||
    (decide (scheduledTime < existingEndTime) &&
      decide (existingEndTime ≤ jobEndTime)) ||
    (decide (existing.scheduledTime ≤ scheduledTime) &&
      decide (scheduledTime < existingEndTime))))

end Permissions

namespace Matching

/-- The fields of `app/models/job.py` `Job` that the matching service reads;
times are in hours on a rational clock, matching the
`timedelta(hours=float(job.duration_hours))` arithmetic. -/
structure MJob where
  scheduledAt : ℚ
  durationHours : ℚ
  ratePerHour : ℚ
deriving DecidableEq, Repr

/-- The fields of `app/models/user.py` `User` that
`_calculate_match_score` reads.  Python truthiness collapses `None` and `0`,
so the nullable numeric columns are carried as plain numbers with `0` for the
falsy case. -/
structure MCleaner where
  averageRating : ℚ
  completedJobs : Nat
  totalJobs : Nat
  hourlyRate : ℚ
deriving DecidableEq, Repr

/-- `JobMatchingService._calculate_match_score` (`app/services/matching.py`
lines 17-53): a running product starting at 1.0 where each factor is applied
only when the corresponding cleaner field is truthy. -/
def calculateMatchScore (job : MJob) (cleaner : MCleaner) : ℚ :=
  let score : ℚ := 1
  let score := if cleaner.averageRating ≠ 0 then
      score * (0.7 + min (cleaner.averageRating / 5) 1 * 0.3)
    else score
  let score := if cleaner.completedJobs ≠ 0 then
      score * (0.8 + min ((cleaner.completedJobs : ℚ) / 100) 1 * 0.2)
    else score
  let score := if cleaner.hourlyRate ≠ 0 then
      score * (0.8 +
        max (1 - |job.ratePerHour - cleaner.hourlyRate| / job.ratePerHour) 0 * 0.2)
    else score
  let score := if 0 < cleaner.totalJobs then
      score * (0.7 + (cleaner.completedJobs : ℚ) / (cleaner.totalJobs : ℚ) * 0.3)
    else score
  score

/-- `JobMatchingService._has_time_conflict` (`app/services/matching.py` lines
73-88): for each busy job, report a conflict when
`job_start <= busy_end and job_end >= busy_start`. -/
def hasTimeConflict (job : MJob) (busyTimes : List MJob) : Bool :=
  let jobStart := job.scheduledAt
  let jobEnd := job.scheduledAt + job.durationHours
  busyTimes.any (fun busy =>
    let busyStart := busy.scheduledAt
    let busyEnd := busy.scheduledAt + busy.durationHours
    decide (jobStart ≤ busyEnd) && decide (jobEnd ≥ busyStart))

/-- The per-row overlap disjunction of the `busy_cleaners` query inside
`find_matches_for_job` (`app/services/matching.py` lines 131-144):
`(existing_start <= job_start <= existing_end) or
 (existing_start <= job_end <= existing_end)` with inclusive endpoints. -/
def busyCleanerOverlap (existing : MJob) (jobStart jobEnd : ℚ) : Bool :=
  let existingStart := existing.scheduledAt
  let existingEnd := existing.scheduledAt + existing.durationHours
  (decide (existingStart ≤ jobStart) && decide (jobStart ≤ existingEnd)) ||
  (decide (existingStart ≤ jobEnd) && decide (jobEnd ≤ existingEnd))

end Matching

namespace Payments

/-- `PaymentStatus` from `app/api/payments/models.py`. -/
inductive PaymentStatus where
  | pending
  | processing
  | completed
  | failed
  | refunded
deriving DecidableEq, Repr

/-- A JSON scalar of the callback payload: the M-PESA callback is consumed as
a plain `dict`, so the result code may arrive as an integer or as a string
and the handler's `==` comparison distinguishes the two. -/
inductive JVal where
  | jint (n : Int)
  | jstr (s : String)
deriving DecidableEq, Repr

/-- Python truthiness of a JSON scalar (`if not checkout_request_id`). -/
def JVal.truthy : JVal → Bool
  | .jint n => n ≠ 0
  | .jstr s => s ≠ ""

/-- A JSON object as an association list (first binding wins on lookup). -/
abbrev JDict := List (String × JVal)

/-- `dict.get(key)`. -/
def jget (d : JDict) (k : String) : Option JVal :=
  (List.find? (fun p => p.1 == k) d).map (fun p => p.2)

/-- `dict[key] = v` semantics: override an existing binding else append. -/
def jset (d : JDict) (k : String) (v : JVal) : JDict :=
  if List.any d (fun p => p.1 == k) then
    List.map (fun p => if p.1 == k then (k, v) else p) d
  else
    d ++ [(k, v)]

/-- `old.update(new)` for dicts. -/
def jupdate (old new : JDict) : JDict :=
  List.foldl (fun acc p => jset acc p.1 p.2) old new

/-- `Payment` from `app/api/payments/models.py` (the fields that
reconciliation reads or writes). -/
structure Payment where
  status : PaymentStatus
  reference : String
  providerReference : Option JVal
  providerMetadata : JDict
  completedAt : Option Int
  updatedAt : Option Int
deriving DecidableEq, Repr

/-- `PaymentService.update_payment_status` (`app/api/payments/service.py`
lines 109-133): set the status unconditionally, stamp `updated_at`, keep the
old provider reference / metadata when the arguments are falsy, and stamp
`completed_at` whenever the new status is COMPLETED or FAILED. -/
def updatePaymentStatus (payment : Payment) (newStatus : PaymentStatus)
    (providerReference : Option JVal) (providerMetadata : JDict) (now : Int) :
    Payment :=
  { payment with
    status := newStatus
    updatedAt := some now
    providerReference :=
      match providerReference with
      | some v => if v.truthy then some v else payment.providerReference
      | none => payment.providerReference
    providerMetadata :=
      if providerMetadata = [] then payment.providerMetadata
      else jupdate payment.providerMetadata providerMetadata
    completedAt :=
      if newStatus = .completed ∨ newStatus = .failed then some now
      else payment.completedAt }

/-- `mpesa_callback` (`app/api/payments/routes.py` lines 79-115) with the
payment lookup and the job the payment belongs to made explicit.  The handler
only calls `payment_service.update_payment_status`; it never touches the job,
which is therefore passed through unchanged.  The result-code branch compares
against the string "0". -/
def mpesaCallback (payment : Option Payment) (job : Jobs.Job) (cb : JDict)
    (now : Int) : Except Jobs.SvcError (Payment × Jobs.Job) :=
  let checkoutRequestId := jget cb "CheckoutRequestID"
  let resultCode := jget cb "ResultCode"
  if (checkoutRequestId.map JVal.truthy).getD false = false then
    .error ⟨400, "Missing CheckoutRequestID in callback data"⟩
  else
    match payment with
    | none => .error ⟨404, "Payment with checkout request ID not found"⟩
    | some p =>
      if resultCode = some (.jstr "0") then
        .ok (updatePaymentStatus p .completed (jget cb "TransactionId") cb now, job)
      else
        .ok (updatePaymentStatus p .failed none
          (jset cb "error" ((jget cb "ResultDesc").getD (.jstr "Payment failed")))
          now, job)

end Payments

namespace V1

/-- `JobStatus` from `app/models/job.py`. -/
inductive V1JobStatus where
  | pending
  | accepted
  | inProgress
  | completed
  | cancelled
deriving DecidableEq, Repr

/-- `PaymentStatus` from `app/models/job.py`. -/
inductive V1PaymentStatus where
  | pending
  | paid
  | failed
  | refunded
deriving DecidableEq, Repr

/-- The fields of `app/models/job.py` `Job` that the v1 payment callback
reads or writes. -/
structure V1Job where
  clientId : Nat
  cleanerId : Option Nat
  status : V1JobStatus
  paymentStatus : V1PaymentStatus
  mpesaReference : Option String
deriving DecidableEq, Repr

/-- A `send_notification` side call (`app/core/notifications.py` interface). -/
structure Notification where
  userId : Option Nat
  title : String
  body : String
deriving DecidableEq, Repr

/-- `handle_payment_callback` (`app/api/v1/endpoints/payments.py` lines
96-143) with the job lookup made explicit: the pydantic schema types
`ResultCode` as `int`; success sets `payment_status = PAID` and notifies both
parties, failure sets FAILED and notifies the client; `job.status` is never
written and no job-lifecycle operation is invoked. -/
def handlePaymentCallback (job : Option V1Job) (resultCode : Int)
    (resultDesc : String) : Except Jobs.SvcError (V1Job × List Notification) :=
  match job with
  | none => .error ⟨404, "Job not found for this payment reference"⟩
  | some j =>
    if resultCode = 0 then
      .ok ({ j with paymentStatus := .paid },
        [⟨some j.clientId, "Payment Successful", "Your payment has been received"⟩,
         ⟨j.cleanerId, "Payment Received", "Payment has been confirmed"⟩])
    else
      .ok ({ j with paymentStatus := .failed },
        [⟨some j.clientId, "Payment Failed", resultDesc⟩])

end V1

namespace Tracking

/-- The projections of a timezone-aware datetime that the time-tracking gate
reads: Python `weekday()` (Monday = 0 .. Sunday = 6), `hour`, the calendar
`date()` as an ordinal, and the full timestamp in minutes. -/
structure LocalTime where
  weekday : Nat
  hour : Nat
  day : Int
  ts : Int
deriving DecidableEq, Repr

/-- `TimeUtils.is_business_hours` (`app/shared/utils/time.py` lines 152-168):
`dt.weekday() < 5 and start_hour <= dt.hour < end_hour`. -/
def isBusinessHours (dt : LocalTime) (startHour : Nat := 9)
    (endHour : Nat := 17) : Bool :=
  decide (dt.weekday < 5) && decide (startHour ≤ dt.hour) &&
    decide (dt.hour < endHour)

/-- `settings.BUSINESS_HOURS_START` (`app/shared/config.py`). -/
def businessHoursStart : Nat := 8

/-- `settings.BUSINESS_HOURS_END` (`app/shared/config.py`). -/
def businessHoursEnd : Nat := 20

/-- The fields of `app/features/jobs/models.py` `Job` that
`TimeTrackingManager.start_tracking` reads. -/
structure TJob where
  id : Nat
  cleanerId : Nat
  scheduledDay : Int
  scheduledTs : Int
  estimatedDuration : Int
deriving DecidableEq, Repr

/-- A job row as seen by the concurrent-session query: cleaner and status. -/
structure TDbJob where
  cleanerId : Nat
  inProgress : Bool
deriving DecidableEq, Repr

/-- `TimeTrackingManager.validate_business_hours`
(`app/features/jobs/time_tracking.py` lines 29-41): raises
`BusinessLogicError` when the current time is outside the configured
business hours. -/
def validateBusinessHours (now : LocalTime) : Except String Unit :=
  if isBusinessHours now businessHoursStart businessHoursEnd then .ok ()
  else .error "Jobs can only be started during business hours"

/-- `TimeTrackingManager.validate_job_schedule`: same-day check then the
±30-minute window check. -/
def validateJobSchedule (job : TJob) (now : LocalTime) : Except String Unit :=
  if job.scheduledDay ≠ now.day then
    .error "Job can only be started on its scheduled date"
  else if 30 < |now.ts - job.scheduledTs| then
    .error "Job can only be started within 30 minutes of scheduled time"
  else
    .ok ()

/-- `TimeTrackingManager.check_concurrent_jobs`: fail when the cleaner has
any IN_PROGRESS job. -/
def checkConcurrentJobs (db : List TDbJob) (cleanerId : Nat) :
    Except String Unit :=
  if db.any (fun j => j.cleanerId == cleanerId && j.inProgress) then
    .error "Cleaner already has an active job"
  else
    .ok ()

/-- The payload `start_tracking` returns on success. -/
structure TrackingResult where
  startTime : Int
  expectedEndTime : Int
  estimatedDuration : Int
deriving DecidableEq, Repr

/-- `TimeTrackingManager.start_tracking` (`app/features/jobs/time_tracking.py`
lines 72-102): run the three validators in order; a `BusinessLogicError` is
re-raised as an HTTP 400 whose detail is the error message; on success the
session opens at `now` with `expected_end = now + estimated_duration`. -/
def startTracking (db : List TDbJob) (job : TJob) (now : LocalTime) :
    Except Jobs.SvcError TrackingResult :=
  match (do
      validateBusinessHours now
      validateJobSchedule job now
      checkConcurrentJobs db job.cleanerId : Except String Unit) with
  | .error msg => .error ⟨400, msg⟩
  | .ok () =>
    .ok ⟨now.ts, now.ts + job.estimatedDuration, job.estimatedDuration⟩

end Tracking

namespace Examples

/-- A COMPLETED job (client 1, cleaner 9) that still carries a pending slot
(id 10, window 2000-2120) proposed before completion. -/
def staleSlotJob : Jobs.Job :=
  { clientId := 1
    cleanerId := some 9
    status := .completed
    estimatedDurationMinutes := 120
    actualDurationMinutes := some 120
    baseCost := 540
    finalCost := some 540
    scheduledFor := some 600
    startedAt := some 600
    completedAt := some 720
    scheduleSlots := [⟨10, 2000, 2120, true, none⟩] }

/-- The job state `accept_schedule_slot staleSlotJob 10 1 2` produces. -/
def staleSlotJobAccepted : Jobs.Job :=
  { staleSlotJob with
    scheduleSlots := [⟨10, 2000, 2120, true, some true⟩]
    cleanerId := some 2
    status := .scheduled
    scheduledFor := some 2000 }

/-- An IN_PROGRESS job brought to COMPLETED state. -/
def completedJobEx : Jobs.Job :=
  { clientId := 1
    cleanerId := some 2
    status := .completed
    estimatedDurationMinutes := 120
    actualDurationMinutes := some 150
    baseCost := 540
    finalCost := some 702
    scheduledFor := some 0
    startedAt := some 0
    completedAt := some 150
    scheduleSlots := [] }

/-- `completedJobEx` after a successful `mark_job_paid`. -/
def paidJobEx : Jobs.Job := { completedJobEx with status := .paid }

/-- A SCHEDULED job assigned to cleaner 2, ready to start. -/
def schedJobEx : Jobs.Job :=
  { clientId := 1
    cleanerId := some 2
    status := .scheduled
    estimatedDurationMinutes := 120
    actualDurationMinutes := none
    baseCost := 540
    finalCost := none
    scheduledFor := some 600
    startedAt := none
    completedAt := none
    scheduleSlots := [] }

/-- A PENDING job of client 1 with two pending sibling slots. -/
def twoSlotJob : Jobs.Job :=
  { clientId := 1
    cleanerId := none
    status := .pending
    estimatedDurationMinutes := 120
    actualDurationMinutes := none
    baseCost := 540
    finalCost := none
    scheduledFor := none
    startedAt := none
    completedAt := none
    scheduleSlots := [⟨1, 1000, 1120, false, none⟩, ⟨2, 3000, 3120, true, none⟩] }

/-- `twoSlotJob` after accepting slot 1 for cleaner 7. -/
def twoSlotJob1 : Jobs.Job :=
  { twoSlotJob with
    scheduleSlots := [⟨1, 1000, 1120, false, some true⟩, ⟨2, 3000, 3120, true, none⟩]
    cleanerId := some 7
    status := .scheduled
    scheduledFor := some 1000 }

/-- `twoSlotJob1` after also accepting the sibling slot 2 for cleaner 8. -/
def twoSlotJob2 : Jobs.Job :=
  { twoSlotJob1 with
    scheduleSlots := [⟨1, 1000, 1120, false, some true⟩, ⟨2, 3000, 3120, true, some true⟩]
    cleanerId := some 8
    scheduledFor := some 3000 }

/-- Cleaner 2 already has an ACCEPTED commitment over exactly the window
2000-2120 that `staleSlotJob`'s pending slot covers. -/
def busyDb : List Permissions.FJob := [⟨some 2, 2000, 120, .accepted⟩]

/-- A job occupying the window [0, 1] (hours clock). -/
def mjobA : Matching.MJob := ⟨0, 1, 10⟩

/-- A busy commitment occupying the window [1, 2]: it merely touches
`mjobA`'s end. -/
def mbusyB : Matching.MJob := ⟨1, 1, 10⟩

/-- A job paying 10 per hour, used for score comparisons. -/
def mjobC9 : Matching.MJob := ⟨0, 2, 10⟩

/-- A cleaner whose numeric columns are all zero (every factor skipped). -/
def cleanerZero : Matching.MCleaner := ⟨0, 0, 0, 0⟩

/-- Like `cleanerZero` but with average rating 1. -/
def cleanerOne : Matching.MCleaner := ⟨1, 0, 0, 0⟩

/-- Like `cleanerOne` but with average rating 2. -/
def cleanerTwo : Matching.MCleaner := ⟨2, 0, 0, 0⟩

/-- Rating 5, no completed jobs, 10 total jobs. -/
def cleanerTenA : Matching.MCleaner := ⟨5, 0, 10, 0⟩

/-- Rating 5, one completed job, 10 total jobs. -/
def cleanerTenB : Matching.MCleaner := ⟨5, 1, 10, 0⟩

/-- A payment in PROCESSING state awaiting its gateway callback. -/
def procPayment : Payments.Payment :=
  { status := .processing
    reference := "PAY-1"
    providerReference := none
    providerMetadata := [("CheckoutRequestID", .jstr "ws_CO_1")]
    completedAt := none
    updatedAt := none }

/-- A gateway callback whose `ResultCode` is the integer 0. -/
def intZeroCb : Payments.JDict :=
  [("CheckoutRequestID", .jstr "ws_CO_1"), ("ResultCode", .jint 0),
   ("ResultDesc", .jstr "The service request is processed successfully."),
   ("TransactionId", .jstr "XK1")]

/-- The same callback with `ResultCode` delivered as the string "0". -/
def strZeroCb : Payments.JDict :=
  [("CheckoutRequestID", .jstr "ws_CO_1"), ("ResultCode", .jstr "0"),
   ("ResultDesc", .jstr "The service request is processed successfully."),
   ("TransactionId", .jstr "XK1")]

/-- `procPayment` after reconciling `strZeroCb` at time 100. -/
def donePayment1 : Payments.Payment :=
  Payments.updatePaymentStatus procPayment .completed
    (Payments.jget strZeroCb "TransactionId") strZeroCb 100

/-- `donePayment1` after reconciling the duplicate `strZeroCb` at time 200. -/
def donePayment2 : Payments.Payment :=
  Payments.updatePaymentStatus donePayment1 .completed
    (Payments.jget strZeroCb "TransactionId") strZeroCb 200

/-- Saturday (weekday 5) at 10:00, inside the configured business hours. -/
def satTime : Tracking.LocalTime := ⟨5, 10, 0, 600⟩

/-- A job scheduled for that Saturday at the matching minute. -/
def tjobEx : Tracking.TJob := ⟨1, 2, 0, 600, 120⟩

end Examples

open Jobs Permissions Matching Payments V1 Tracking Examples

/-- C7, counterexample.  The claim computes the overtime example with a rate
of 1000/120 per minute and predicts approximately 1300; the service charges
the fixed `base_rate_per_minute` of 4.50, so the final cost for base 1000,
estimated 120, actual 150 is 1162 — more than 100 away from 1300. -/
theorem finalCost_spec_example_refuted :
    calculateFinalCost 1000 150 120 = 1162 ∧
    calculateFinalCost 1000 150 120 ≠ 1300 ∧
    100 < (1300 : ℚ) - calculateFinalCost 1000 150 120 := by
  norm_num [calculateFinalCost, baseRatePerMinute]

/-- C7, amended.  `_calculate_final_cost` returns the base cost when the
actual duration does not exceed the estimate, and otherwise adds
`extra × 4.50 × 1.2` where 4.50 is the service's fixed per-minute rate (not
`baseCost / estimatedMinutes`); hence the spec's inputs (base 1000,
estimated 120, actual 90 / actual 150) give 1000 and 1162. -/
theorem finalCost_fixed_rate :
    (∀ (base : ℚ) (actual est : Int), actual ≤ est →
        calculateFinalCost base actual est = base) ∧
    (∀ (base : ℚ) (actual est : Int), est < actual →
        calculateFinalCost base actual est =
          base + ((actual - est : Int) : ℚ) * (9 / 2) * (6 / 5)) ∧
    calculateFinalCost 1000 90 120 = 1000 ∧
    calculateFinalCost 1000 150 120 = 1162 := by
  refine ⟨?_, ?_, ?_, ?_⟩
  · intro base actual est h
    simp [calculateFinalCost, h]
  · intro base actual est h
    rw [calculateFinalCost, if_neg (not_le.mpr h)]
    norm_num [baseRatePerMinute]
  · norm_num [calculateFinalCost]
  · norm_num [calculateFinalCost, baseRatePerMinute]

/-- Witness for C7's amended theorem at the spec's concrete inputs. -/
theorem finalCost_fixed_rate_witness :
    calculateFinalCost 1000 90 120 = 1000 ∧
    calculateFinalCost 1000 150 120 =
      1000 + ((150 - 120 : Int) : ℚ) * (9 / 2) * (6 / 5) :=
  ⟨finalCost_fixed_rate.1 1000 90 120 (by norm_num),
   finalCost_fixed_rate.2.1 1000 150 120 (by norm_num)⟩

/-- C3, counterexample.  Marking a COMPLETED job paid succeeds, but the
second `mark_job_paid` call on the now-PAID job raises HTTP 400 instead of
returning a no-op success: the operation is not idempotent. -/
theorem markPaid_not_idempotent :
    markJobPaid completedJobEx = .ok paidJobEx ∧
    paidJobEx.status = .paid ∧
    (markJobPaid paidJobEx).isOk = false := by
  exact ⟨rfl, rfl, rfl⟩

/-- C3, amended.  `mark_job_paid` succeeds exactly from COMPLETED, setting
status PAID; from any other status — including an already-PAID job — it
raises HTTP 400 ("Cannot mark as paid a job with status ...") and, raising
before any write, leaves the job unchanged.  The PAID self-call is an error,
not an idempotent no-op. -/
theorem markPaid_only_from_completed :
    ∀ job : Jobs.Job,
      (job.status = .completed →
        markJobPaid job = .ok { job with status := .paid }) ∧
      (job.status ≠ .completed →
        markJobPaid job =
          .error ⟨400, "Cannot mark as paid a job with status " ++ job.status.text⟩) := by
  intro job
  constructor
  · intro h
    simp [markJobPaid, h]
  · intro h
    simp [markJobPaid, h]

/-- Witness for C3's amended theorem: the success case on a COMPLETED job and
the error case on a PAID job, at concrete inputs. -/
theorem markPaid_only_from_completed_witness :
    markJobPaid completedJobEx = .ok { completedJobEx with status := .paid } ∧
    markJobPaid paidJobEx =
      .error ⟨400, "Cannot mark as paid a job with status " ++
        JobStatus.text .paid⟩ :=
  ⟨(markPaid_only_from_completed completedJobEx).1 rfl,
   (markPaid_only_from_completed paidJobEx).2 (by decide)⟩

/-- C4, counterexample.  `accept_schedule_slot` has no job-status guard: on a
COMPLETED job that still carries a pending slot it succeeds and moves the job
back to SCHEDULED — an edge outside the §4.1 graph — raising no
`JobStatusTransitionError` at all. -/
theorem lifecycle_graph_refuted :
    acceptScheduleSlot staleSlotJob 10 1 2 = .ok staleSlotJobAccepted ∧
    staleSlotJob.status = .completed ∧
    staleSlotJobAccepted.status = .scheduled ∧
    specEdge .completed .scheduled = false := by
  exact ⟨rfl, rfl, rfl, rfl⟩

/-- C4, amended.  `start_job`, `complete_job`, `mark_job_paid` and
`cancel_job` only move a job along the §4.1 edges (cancel additionally
succeeds as a status-preserving self-loop on an already-CANCELED job), and
their guard failures are plain `HTTPException`s raised before any write, not
`JobStatusTransitionError`; `accept_schedule_slot`, however, checks no job
status: whenever it succeeds it sets SCHEDULED, whatever the previous status
(including COMPLETED, PAID and CANCELED). -/
theorem lifecycle_graph_amended :
    (∀ (j : Jobs.Job) (c : Nat) (now : Int) (j' : Jobs.Job),
        startJob j c now = .ok j' →
        j.status = .scheduled ∧ j'.status = .inProgress) ∧
    (∀ (j : Jobs.Job) (c : Nat) (a now : Int) (j' : Jobs.Job),
        completeJob j c a now = .ok j' →
        j.status = .inProgress ∧ j'.status = .completed) ∧
    (∀ (j j' : Jobs.Job), markJobPaid j = .ok j' →
        j.status = .completed ∧ j'.status = .paid) ∧
    (∀ (j : Jobs.Job) (u : Nat) (b : Bool) (j' : Jobs.Job),
        cancelJob j u b = .ok j' →
        (j.status ≠ .completed ∧ j.status ≠ .paid) ∧ j'.status = .canceled) ∧
    (∀ (j : Jobs.Job) (s c cl : Nat) (j' : Jobs.Job),
        acceptScheduleSlot j s c cl = .ok j' → j'.status = .scheduled) := by
  refine ⟨?_, ?_, ?_, ?_, ?_⟩
  · intro j c now j' h
    simp only [startJob] at h
    split at h
    · cases h
    · split at h
      · cases h
      · rename_i h1 h2
        cases h
        exact ⟨by simpa using h2, rfl⟩
  · intro j c a now j' h
    simp only [completeJob] at h
    split at h
    · cases h
    · split at h
      · cases h
      · split at h
        · cases h
        · rename_i h1 h2 h3
          cases h
          exact ⟨by simpa using h2, rfl⟩
  · intro j j' h
    simp only [markJobPaid] at h
    split at h
    · cases h
    · rename_i h1
      cases h
      exact ⟨by simpa using h1, rfl⟩
  · intro j u b j' h
    simp only [cancelJob] at h
    split at h
    · cases h
    · split at h
      · cases h
      · split at h
        · cases h
        · rename_i h1 h2 h3
          cases h
          exact ⟨⟨fun hc => h3 (Or.inl hc), fun hp => h3 (Or.inr hp)⟩, rfl⟩
  · intro j s c cl j' h
    simp only [acceptScheduleSlot] at h
    split at h
    · cases h
    · split at h
      · cases h
      · split at h
        · cases h
        · cases h
          rfl

/-- Witness for C4's amended theorem: starting a concrete SCHEDULED job. -/
theorem lifecycle_graph_amended_witness :
    schedJobEx.status = .scheduled ∧
    ({ schedJobEx with
        status := .inProgress
        startedAt := some (0 : Int) } : Jobs.Job).status = .inProgress :=
  lifecycle_graph_amended.1 schedJobEx 2 0 _ rfl

/-- C5, counterexample.  The acceptance-time check only inspects the targeted
slot's own tri-state, not its siblings: accepting pending slot 1 and then
pending slot 2 of the same job both succeed, leaving two accepted slots. -/
theorem single_accept_invariant_refuted :
    acceptScheduleSlot twoSlotJob 1 1 7 = .ok twoSlotJob1 ∧
    acceptScheduleSlot twoSlotJob1 2 1 8 = .ok twoSlotJob2 ∧
    acceptedCount twoSlotJob2 = 2 := by
  exact ⟨rfl, rfl, rfl⟩

/-- C5, amended.  The only acceptance-time guard is on the targeted slot
itself: a slot whose tri-state is already processed (accepted or rejected)
cannot be accepted again, but pending siblings of an accepted slot remain
acceptable, so a job can end up with two accepted slots. -/
theorem accept_guards_only_target_slot :
    ∀ (job : Jobs.Job) (slotId clientId cleanerId : Nat)
      (slot : Jobs.ScheduleSlot),
      findSlot job.scheduleSlots slotId = some slot →
      slot.isAccepted ≠ none →
      (acceptScheduleSlot job slotId clientId cleanerId).isOk = false := by
  intro job slotId clientId cleanerId slot hfind hacc
  simp only [acceptScheduleSlot, hfind]
  split <;> simp_all [Except.isOk, Except.toBool]

/-- Witness for C5's amended theorem: re-accepting the already-accepted slot
1 of `twoSlotJob1` fails. -/
theorem accept_guards_only_target_slot_witness :
    (acceptScheduleSlot twoSlotJob1 1 1 7).isOk = false :=
  accept_guards_only_target_slot twoSlotJob1 1 1 7
    ⟨1, 1000, 1120, false, some true⟩ rfl (by decide)

/-- C6, counterexample.  `validate_cleaner_availability` reports cleaner 2 as
unavailable over the window 2000-2120, yet accepting `staleSlotJob`'s pending
slot covering exactly that window succeeds and assigns cleaner 2 — no
`CleanerNotAvailableError` is possible — even though the job is COMPLETED
(not PENDING/SCHEDULED) and already has cleaner 9 assigned. -/
theorem assign_conflict_check_refuted :
    validateCleanerAvailability busyDb 2 2000 120 = false ∧
    staleSlotJob.status = .completed ∧
    staleSlotJob.cleanerId = some 9 ∧
    acceptScheduleSlot staleSlotJob 10 1 2 = .ok staleSlotJobAccepted ∧
    staleSlotJobAccepted.cleanerId = some 2 := by
  exact ⟨by decide, rfl, rfl, rfl, rfl⟩

/-- C6, amended.  Assignment via `accept_schedule_slot` succeeds exactly when
the caller is the job's client and the targeted slot exists with a pending
tri-state: the operation imposes no PENDING/SCHEDULED status guard, no
no-cleaner-assigned guard, and consults no availability check (the
`validate_cleaner_availability` conflict test is only wired to the separate
assign-cleaner route), so it can never fail with
`CleanerNotAvailableError`. -/
theorem accept_success_characterization :
    ∀ (job : Jobs.Job) (slotId clientId cleanerId : Nat),
      (acceptScheduleSlot job slotId clientId cleanerId).isOk = true ↔
        (job.clientId = clientId ∧
          ∃ slot, findSlot job.scheduleSlots slotId = some slot ∧
            slot.isAccepted = none) := by
  intro job slotId clientId cleanerId
  simp only [acceptScheduleSlot]
  rcases eq_or_ne job.clientId clientId with hc | hc
  · simp only [hc, ne_eq, not_true_eq_false, if_false]
    cases hfind : findSlot job.scheduleSlots slotId with
    | none => simp [Except.isOk, Except.toBool]
    | some slot =>
      rcases hacc : slot.isAccepted with _ | b
      · simp [Except.isOk, Except.toBool, hacc]
      · simp [Except.isOk, Except.toBool, hacc]
  · simp [hc, Except.isOk, Except.toBool]

/-- Witness for C6's amended theorem: the characterization applied at the
concrete pending slot 1 of `twoSlotJob`. -/
theorem accept_success_characterization_witness :
    (acceptScheduleSlot twoSlotJob 1 1 7).isOk = true :=
  (accept_success_characterization twoSlotJob 1 1 7).mpr
    ⟨rfl, ⟨1, 1000, 1120, false, none⟩, rfl, rfl⟩

/-- C8, counterexample.  The windows [0, 1] and [1, 2] merely touch at the
boundary, so the claim's half-open test `start < existingEnd AND
end > existingStart` reports no conflict (1 > 1 fails), yet
`_has_time_conflict` reports one: its comparisons are inclusive. -/
theorem conflict_touching_refuted :
    hasTimeConflict mjobA [mbusyB] = true ∧
    mjobA.scheduledAt + mjobA.durationHours = mbusyB.scheduledAt ∧
    ¬(mjobA.scheduledAt < mbusyB.scheduledAt + mbusyB.durationHours ∧
      mbusyB.scheduledAt < mjobA.scheduledAt + mjobA.durationHours) := by
  refine ⟨by norm_num [hasTimeConflict, mjobA, mbusyB], by norm_num [mjobA, mbusyB], ?_⟩
  norm_num [mjobA, mbusyB]

/-- C8, amended.  Both conflict tests use closed intervals:
`_has_time_conflict` reports a conflict exactly when
`start ≤ existingEnd AND end ≥ existingStart` holds for some busy window, and
the `busy_cleaners` overlap disjunction of `find_matches_for_job` holds
exactly when one of the new window's endpoints lies inside the existing
closed window; in both, windows that merely touch at a boundary DO
conflict. -/
theorem conflict_closed_intervals :
    (∀ (job : Matching.MJob) (busyTimes : List Matching.MJob),
        hasTimeConflict job busyTimes = true ↔
          ∃ b ∈ busyTimes,
            job.scheduledAt ≤ b.scheduledAt + b.durationHours ∧
            b.scheduledAt ≤ job.scheduledAt + job.durationHours) ∧
    (∀ (existing : Matching.MJob) (s t : ℚ),
        busyCleanerOverlap existing s t = true ↔
          ((existing.scheduledAt ≤ s ∧
              s ≤ existing.scheduledAt + existing.durationHours) ∨
           (existing.scheduledAt ≤ t ∧
              t ≤ existing.scheduledAt + existing.durationHours))) := by
  constructor
  · intro job busyTimes
    simp [hasTimeConflict, List.any_eq_true, ge_iff_le]
  · intro existing s t
    simp [busyCleanerOverlap]

/-- Witness for C8's amended theorem: the touching pair is a conflict. -/
theorem conflict_closed_intervals_witness :
    hasTimeConflict mjobA [mbusyB] = true :=
  (conflict_closed_intervals.1 mjobA [mbusyB]).mpr
    ⟨mbusyB, by simp, by norm_num [mjobA, mbusyB], by norm_num [mjobA, mbusyB]⟩

/-- C9, counterexample.  Python truthiness skips a factor when the field is
zero: a cleaner with rating 0 scores 1 while an otherwise-identical cleaner
with rating 1 scores 0.76, and with 10 total jobs a cleaner with 0 completed
jobs scores 0.7 while one with 1 completed job scores 0.58546 — the score is
not monotonically non-decreasing in rating or completed jobs. -/
theorem score_monotonicity_refuted :
    (cleanerZero.averageRating < cleanerOne.averageRating ∧
      cleanerZero.completedJobs = cleanerOne.completedJobs ∧
      cleanerZero.totalJobs = cleanerOne.totalJobs ∧
      cleanerZero.hourlyRate = cleanerOne.hourlyRate ∧
      calculateMatchScore mjobC9 cleanerOne <
        calculateMatchScore mjobC9 cleanerZero) ∧
    (cleanerTenA.completedJobs < cleanerTenB.completedJobs ∧
      cleanerTenA.averageRating = cleanerTenB.averageRating ∧
      cleanerTenA.totalJobs = cleanerTenB.totalJobs ∧
      cleanerTenA.hourlyRate = cleanerTenB.hourlyRate ∧
      calculateMatchScore mjobC9 cleanerTenB <
        calculateMatchScore mjobC9 cleanerTenA) := by
  constructor
  · refine ⟨by norm_num [cleanerZero, cleanerOne], rfl, rfl, rfl, ?_⟩
    norm_num [calculateMatchScore, cleanerZero, cleanerOne, min_def]
  · refine ⟨by norm_num [cleanerTenA, cleanerTenB], rfl, rfl, rfl, ?_⟩
    norm_num [calculateMatchScore, cleanerTenA, cleanerTenB, min_def]

/-- The running product of `_calculate_match_score`, written as an explicit
product of its four guarded factors. -/
theorem calculateMatchScore_eq_prod (job : Matching.MJob) (c : Matching.MCleaner) :
    calculateMatchScore job c =
      (if c.averageRating ≠ 0 then
          0.7 + min (c.averageRating / 5) 1 * 0.3 else 1) *
      ((if c.completedJobs ≠ 0 then
          0.8 + min ((c.completedJobs : ℚ) / 100) 1 * 0.2 else 1) *
      ((if c.hourlyRate ≠ 0 then
          0.8 + max (1 - |job.ratePerHour - c.hourlyRate| / job.ratePerHour) 0 * 0.2
        else 1) *
      (if 0 < c.totalJobs then
          0.7 + (c.completedJobs : ℚ) / (c.totalJobs : ℚ) * 0.3 else 1))) := by
  unfold calculateMatchScore
  split_ifs <;> ring

/-- The guarded quality factor is nonnegative for nonnegative ratings. -/
theorem ratingFactor_nonneg (r : ℚ) (h : 0 ≤ r) :
    (0 : ℚ) ≤ if r ≠ 0 then 0.7 + min (r / 5) 1 * 0.3 else 1 := by
  split_ifs
  · have hm : (0 : ℚ) ≤ min (r / 5) 1 := le_min (by positivity) (by norm_num)
    nlinarith [hm]
  · norm_num

/-- The guarded experience factor is nonnegative. -/
theorem expFactor_nonneg (n : ℕ) :
    (0 : ℚ) ≤ if n ≠ 0 then 0.8 + min ((n : ℚ) / 100) 1 * 0.2 else 1 := by
  split_ifs
  · have hm : (0 : ℚ) ≤ min ((n : ℚ) / 100) 1 := le_min (by positivity) (by norm_num)
    nlinarith [hm]
  · norm_num

/-- The guarded price-fit factor is nonnegative. -/
theorem priceFactor_nonneg (jr hr : ℚ) :
    (0 : ℚ) ≤ if hr ≠ 0 then
        0.8 + max (1 - |jr - hr| / jr) 0 * 0.2 else 1 := by
  split_ifs
  · have hm : (0 : ℚ) ≤ max (1 - |jr - hr| / jr) 0 := le_max_right _ _
    nlinarith [hm]
  · norm_num

/-- The guarded reliability factor is nonnegative. -/
theorem succFactor_nonneg (cj tj : ℕ) :
    (0 : ℚ) ≤ if 0 < tj then 0.7 + (cj : ℚ) / (tj : ℚ) * 0.3 else 1 := by
  split_ifs
  · positivity
  · norm_num

/-- C9, amended.  The truthiness guards break monotonicity at zero (see the
counterexample), but away from the falsy values the claim holds:
`_calculate_match_score` is monotonically non-decreasing in the average
rating over strictly positive ratings, and — for a nonnegative rating —
monotonically non-decreasing in the completed-job count over strictly
positive counts, all other cleaner fields being equal. -/
theorem score_monotone_for_positive_fields :
    (∀ (job : Matching.MJob) (c1 c2 : Matching.MCleaner),
        c1.completedJobs = c2.completedJobs → c1.totalJobs = c2.totalJobs →
        c1.hourlyRate = c2.hourlyRate →
        0 < c1.averageRating → c1.averageRating ≤ c2.averageRating →
        calculateMatchScore job c1 ≤ calculateMatchScore job c2) ∧
    (∀ (job : Matching.MJob) (c1 c2 : Matching.MCleaner),
        c1.averageRating = c2.averageRating → 0 ≤ c1.averageRating →
        c1.totalJobs = c2.totalJobs → c1.hourlyRate = c2.hourlyRate →
        0 < c1.completedJobs → c1.completedJobs ≤ c2.completedJobs →
        calculateMatchScore job c1 ≤ calculateMatchScore job c2) := by
  constructor
  · intro job c1 c2 hcj htj hhr hpos hle
    have h1 : c1.averageRating ≠ 0 := ne_of_gt hpos
    have h2 : c2.averageRating ≠ 0 := ne_of_gt (lt_of_lt_of_le hpos hle)
    rw [calculateMatchScore_eq_prod, calculateMatchScore_eq_prod, hcj, htj, hhr,
      if_pos h1, if_pos h2]
    apply mul_le_mul_of_nonneg_right
    · have hm : min (c1.averageRating / 5) 1 ≤ min (c2.averageRating / 5) 1 :=
        min_le_min (by linarith) le_rfl
      nlinarith [hm]
    · exact mul_nonneg (expFactor_nonneg _)
        (mul_nonneg (priceFactor_nonneg _ _) (succFactor_nonneg _ _))
  · intro job c1 c2 hr hrnn htj hhr hpos hle
    have h1 : c1.completedJobs ≠ 0 := Nat.pos_iff_ne_zero.mp hpos
    have h2 : c2.completedJobs ≠ 0 := by omega
    have hcast : (c1.completedJobs : ℚ) ≤ (c2.completedJobs : ℚ) := by
      exact_mod_cast hle
    rw [calculateMatchScore_eq_prod, calculateMatchScore_eq_prod, hr, htj, hhr,
      if_pos h1, if_pos h2]
    apply mul_le_mul_of_nonneg_left
    · have hf2 : (0.8 : ℚ) + min ((c1.completedJobs : ℚ) / 100) 1 * 0.2 ≤
          0.8 + min ((c2.completedJobs : ℚ) / 100) 1 * 0.2 := by
        have hm : min ((c1.completedJobs : ℚ) / 100) 1 ≤
            min ((c2.completedJobs : ℚ) / 100) 1 :=
          min_le_min (by linarith) le_rfl
        nlinarith [hm]
      have hf2nn : (0 : ℚ) ≤ 0.8 + min ((c2.completedJobs : ℚ) / 100) 1 * 0.2 := by
        have hm : (0 : ℚ) ≤ min ((c2.completedJobs : ℚ) / 100) 1 :=
          le_min (by positivity) (by norm_num)
        nlinarith [hm]
      have hf4 : (if 0 < c2.totalJobs then
            0.7 + (c1.completedJobs : ℚ) / (c2.totalJobs : ℚ) * 0.3 else 1) ≤
          (if 0 < c2.totalJobs then
            0.7 + (c2.completedJobs : ℚ) / (c2.totalJobs : ℚ) * 0.3 else 1) := by
        split_ifs with hp
        · have htc : (0 : ℚ) < (c2.totalJobs : ℚ) := by exact_mod_cast hp
          have hdiv : (c1.completedJobs : ℚ) / (c2.totalJobs : ℚ) ≤
              (c2.completedJobs : ℚ) / (c2.totalJobs : ℚ) := by
            rw [div_eq_mul_inv, div_eq_mul_inv]
            exact mul_le_mul_of_nonneg_right hcast (inv_nonneg.mpr htc.le)
          nlinarith [hdiv]
        · exact le_rfl
      apply mul_le_mul hf2 _ _ hf2nn
      · exact mul_le_mul_of_nonneg_left hf4 (priceFactor_nonneg _ _)
      · exact mul_nonneg (priceFactor_nonneg _ _) (succFactor_nonneg _ _)
    · exact ratingFactor_nonneg _ (hr ▸ hrnn)

/-- Witness for C9's amended theorem: rating 1 versus rating 2, all other
fields equal. -/
theorem score_monotone_for_positive_fields_witness :
    calculateMatchScore mjobC9 cleanerOne ≤ calculateMatchScore mjobC9 cleanerTwo :=
  score_monotone_for_positive_fields.1 mjobC9 cleanerOne cleanerTwo
    rfl rfl rfl (by norm_num [cleanerOne]) (by norm_num [cleanerOne, cleanerTwo])

/-- C1, counterexample.  A PROCESSING payment reconciled with a callback
whose result code is the integer 0 is marked FAILED, because `mpesa_callback`
compares the result code against the string "0"; and the associated job's
status is untouched (still COMPLETED, not PAID): `mark_job_paid` is never
triggered. -/
theorem reconcile_int_zero_refuted :
    procPayment.status = .processing ∧
    (mpesaCallback (some procPayment) completedJobEx intZeroCb 500).map
        (fun r => (r.1.status, r.2.status)) =
      .ok (.failed, .completed) := by
  exact ⟨rfl, rfl⟩

/-- C1, amended.  `mpesa_callback` marks the payment COMPLETED (stamping
`completed_at` and keeping the job untouched) exactly when the callback's
`ResultCode` equals the string "0"; every other result code — including the
integer 0 — marks it FAILED.  Neither callback handler invokes
`mark_job_paid`: the v1 handler sets the job's `payment_status` field to
PAID/FAILED by the integer comparison but never writes `job.status`. -/
theorem reconcile_result_code_amended :
    (∀ (p : Payments.Payment) (j : Jobs.Job) (cb : Payments.JDict) (now : Int),
        ((jget cb "CheckoutRequestID").map JVal.truthy).getD false = true →
        (mpesaCallback (some p) j cb now).map
            (fun r => (r.1.status, r.1.completedAt, r.2)) =
          .ok ((if jget cb "ResultCode" = some (.jstr "0") then
                  .completed else .failed),
               some now, j)) ∧
    (∀ (j : V1.V1Job) (rc : Int) (desc : String),
        (handlePaymentCallback (some j) rc desc).map
            (fun r => (r.1.paymentStatus, r.1.status)) =
          .ok ((if rc = 0 then .paid else .failed), j.status)) := by
  constructor
  · intro p j cb now h
    simp only [mpesaCallback, h, Bool.true_eq_false, if_false]
    split_ifs with hrc
    · simp [updatePaymentStatus, Except.map]
    · simp [updatePaymentStatus, Except.map]
  · intro j rc desc
    simp only [handlePaymentCallback]
    split_ifs with hrc
    · simp [Except.map]
    · simp [Except.map]

/-- Witness for C1's amended theorem: the string-"0" callback completes the
concrete PROCESSING payment at time 77 without touching the job. -/
theorem reconcile_result_code_amended_witness :
    (mpesaCallback (some procPayment) completedJobEx strZeroCb 77).map
        (fun r => (r.1.status, r.1.completedAt, r.2)) =
      .ok (.completed, some 77, completedJobEx) := by
  have h := reconcile_result_code_amended.1 procPayment completedJobEx strZeroCb 77 rfl
  simpa using h

/-- C2, counterexample.  `mpesa_callback` has no duplicate guard: delivering
the same success callback a second time at time 200 re-applies
`update_payment_status`, so the stored payment differs from the state after
the first delivery at time 100 (`completed_at` moves from 100 to 200). -/
theorem reconcile_duplicate_refuted :
    mpesaCallback (some procPayment) completedJobEx strZeroCb 100 =
      .ok (donePayment1, completedJobEx) ∧
    donePayment1.status = .completed ∧
    mpesaCallback (some donePayment1) completedJobEx strZeroCb 200 =
      .ok (donePayment2, completedJobEx) ∧
    donePayment1.completedAt = some 100 ∧
    donePayment2.completedAt = some 200 ∧
    donePayment2 ≠ donePayment1 := by
  refine ⟨rfl, rfl, rfl, rfl, rfl, by decide⟩

/-- C2, amended.  Reconciliation is not guarded for duplicates: on a payment
already COMPLETED or FAILED, a repeated callback still returns success but
re-applies `update_payment_status`, restamping `updated_at` and
`completed_at` with the delivery time (so the stored state differs whenever
the delivery times differ, as the counterexample shows); the job is passed
through untouched — `mark_job_paid` is never invoked at all, hence trivially
never double-applied. -/
theorem reconcile_no_duplicate_guard :
    ∀ (p : Payments.Payment) (j : Jobs.Job) (cb : Payments.JDict) (now : Int),
      (p.status = .completed ∨ p.status = .failed) →
      ((jget cb "CheckoutRequestID").map JVal.truthy).getD false = true →
      (mpesaCallback (some p) j cb now).map
          (fun r => (r.1.completedAt, r.1.updatedAt, r.2)) =
        .ok (some now, some now, j) := by
  intro p j cb now hdup h
  simp only [mpesaCallback, h, Bool.true_eq_false, if_false]
  split_ifs with hrc
  · simp [updatePaymentStatus, Except.map]
  · simp [updatePaymentStatus, Except.map]

/-- Witness for C2's amended theorem: the duplicate delivery at time 200 on
the already-COMPLETED `donePayment1`. -/
theorem reconcile_no_duplicate_guard_witness :
    (mpesaCallback (some donePayment1) completedJobEx strZeroCb 200).map
        (fun r => (r.1.completedAt, r.1.updatedAt, r.2)) =
      .ok (some 200, some 200, completedJobEx) :=
  reconcile_no_duplicate_guard donePayment1 completedJobEx strZeroCb 200
    (Or.inl rfl) rfl

/-- C10, confirmed.  `is_business_hours` requires `weekday() < 5`, so on a
Saturday or Sunday (weekday 5 or 6) it returns false for every hour and any
configured start/end hours, and `start_tracking` — which validates business
hours first — fails with the `BusinessLogicError` message re-raised as
HTTP 400, whatever the job, schedule or concurrent sessions. -/
theorem weekend_blocks_start_tracking :
    ∀ (dt : Tracking.LocalTime) (startHour endHour : Nat)
      (db : List Tracking.TDbJob) (job : Tracking.TJob),
      5 ≤ dt.weekday →
      isBusinessHours dt startHour endHour = false ∧
      startTracking db job dt =
        .error ⟨400, "Jobs can only be started during business hours"⟩ := by
  intro dt startHour endHour db job h
  have hb : ∀ (s e : ℕ), isBusinessHours dt s e = false := by
    intro s e
    unfold isBusinessHours
    have : ¬dt.weekday < 5 := by omega
    simp [this]
  refine ⟨hb startHour endHour, ?_⟩
  unfold startTracking
  simp [Tracking.validateBusinessHours, hb, Bind.bind, Except.bind]

/-- Witness for C10's theorem: Saturday 10:00 (inside the 8-20 configured
window) still blocks tracking start. -/
theorem weekend_blocks_start_tracking_witness :
    5 ≤ satTime.weekday ∧
    (isBusinessHours satTime 8 20 = false ∧
      startTracking [] tjobEx satTime =
        .error ⟨400, "Jobs can only be started during business hours"⟩) :=
  ⟨by decide, weekend_blocks_start_tracking satTime 8 20 [] tjobEx (by decide)⟩

end Keateka
